import Mathlib

/-!
# Formal model of the AI test-case generation pipeline (`src/backend/TEST10.py`)

Shallow embedding conventions:

* Python strings are Lean `String`s; text algorithms work on `String.data`
  (`List Char`).  The inputs exercised here are ASCII, and the regular
  expression character classes are modelled with their ASCII meaning
  (`\s` = space/tab/newline/CR/VT/FF, `\w` = letters/digits/underscore,
  `\d` = decimal digits), matching CPython's behaviour on such inputs.
* Python floats are modelled as `ℚ`.  Every float computation in the
  modelled code is exact in binary floating point (products of small
  integers with 0.75/0.5, and the literal score multipliers compared only
  against each other), so `ℚ` is a faithful model of the comparisons the
  claims are about.
* The LLM completion client (`LocalLLMClient.generate`) is an external
  collaborator; an attempt's outcome is modelled as `Option String`
  (`none` = the call raised, which the orchestrator catches and treats as
  zero tests from that attempt; `some s` = the raw completion text `s`).
* `GeneratedTest.expected` has Python type `Any`, but every record built
  by the parser or the fallback generator stores a string there, so the
  field is modelled as `String`.
-/

/-- `GeneratedTest` dataclass (TEST10.py lines 26-33). -/
structure GeneratedTest where
  code : String
  description : String
  test_type : String
  expected : String
  quality_score : ℚ
  validation_notes : List String
  deriving DecidableEq

/-- `FunctionAnalysis` dataclass (TEST10.py lines 36-49). -/
structure FunctionAnalysis where
  name : String
  func_type : String
  parameters : List (String × Option String)
  return_type : Option String
  is_async : Bool
  is_generator : Bool
  decorators : List String
  raises_exceptions : List String
  docstring : Option String
  complexity : String
  external_calls : List String
  source_code : String
  deriving DecidableEq

/-! ## String helpers (Python substring test, `str.lower`, `str.strip`) -/

/-- Python `\s` on ASCII text: space, tab, newline, CR, vertical tab, form feed. -/
def pyIsSpace (c : Char) : Bool :=
  c == ' ' || c == '\t' || c == '\n' || c == '\r' || c == '\x0b' || c == '\x0c'

/-- Python `\w` on ASCII text: letters, digits, underscore. -/
def pyIsWord (c : Char) : Bool :=
  c.isAlpha || c.isDigit || c == '_'

/-- Contiguous-substring test on character lists (Python `needle in hay`). -/
def containsSubList (hay needle : List Char) : Bool :=
  match hay with
  | [] => needle.isEmpty
  | c :: t => needle.isPrefixOf (c :: t) || containsSubList t needle

/-- Python `needle in hay` for strings. -/
def strContains (hay needle : String) : Bool :=
  containsSubList hay.data needle.data

/-- Python `str.lower` (ASCII). -/
def lowerStr (s : String) : String :=
  String.mk (s.data.map Char.toLower)

/-- Python `str.strip()` (remove leading and trailing whitespace). -/
def pyStrip (l : List Char) : List Char :=
  ((l.dropWhile pyIsSpace).reverse.dropWhile pyIsSpace).reverse

/-! ## Quality scoring (`_score_test_quality`, TEST10.py lines 725-753) -/

/-- `_score_test_quality`: multiplicative score starting at `1.0`, clamped to
`[0.1, 1.0]` by `min(max(score, 0.1), 1.0)`.  `code`/`expected` are the values
`test_data.get('code', '')` / `test_data.get('expected', '')`. -/
def score_test_quality (code expected func_name : String) : ℚ :=
  let score : ℚ := 1
  let score := if code = "" ∨ code.length < 5 then score * (3/10) else score
  let score := if expected = "" then score * (1/2) else score
  let score := if strContains code func_name then score * (11/10) else score
  let score := if strContains (lowerStr code) ("assert") then score * (21/20) else score
  let score := if 30 < code.length then score * (21/20) else score
  let score := if 60 < code.length then score * (21/20) else score
  min (max score (1/10)) 1

/-- Status labelling the orchestrator's `run` applies to each generated test
(TEST10.py line 412): `'passed' if test.quality_score > 0.7 else 'failed'`. -/
def run_status (t : GeneratedTest) : String :=
  if 7/10 < t.quality_score then "passed" else "failed"

/-! ## Target test count (`_calculate_target_tests`, TEST10.py lines 516-548) -/

/-- `_calculate_target_tests`: base 20, bumped by complexity, category,
parameter count, raised exceptions and external calls, capped at 100. -/
def calculate_target_tests (fa : FunctionAnalysis) : Nat :=
  let base := 20
  let base := base +
    (if fa.complexity = "complex" then 15
     else if fa.complexity = "moderate" then 8 else 0)
  let base := base +
    (if fa.func_type = "context_manager" ∨ fa.func_type = "db_function" ∨
        fa.func_type = "api_endpoint" then 10
     else if fa.func_type = "auth_function" then 8 else 0)
  let param_count := fa.parameters.length
  let base := base +
    (if 3 < param_count then param_count * 3
     else if 0 < param_count then param_count * 2 else 0)
  let base := base +
    (if fa.raises_exceptions ≠ [] then fa.raises_exceptions.length * 2 else 0)
  let base := base +
    (if fa.external_calls ≠ [] then fa.external_calls.length else 0)
  min base 100

/-- The target-count formula exactly as the specification words it:
`min(20 + complexity bonus + category bonus + (3·n if n>3 else 2·n)
 + 2·#raised + #externalCalls, 100)`. -/
def target_tests_spec (fa : FunctionAnalysis) : Nat :=
  min (20
    + (if fa.complexity = "complex" then 15
       else if fa.complexity = "moderate" then 8 else 0)
    + (if fa.func_type = "context_manager" ∨ fa.func_type = "db_function" ∨
          fa.func_type = "api_endpoint" then 10
       else if fa.func_type = "auth_function" then 8 else 0)
    + (if 3 < fa.parameters.length then 3 * fa.parameters.length
       else 2 * fa.parameters.length)
    + 2 * fa.raises_exceptions.length
    + fa.external_calls.length) 100

/-- A `moderate`-complexity `utility` function with 2 untyped parameters, no
raised exceptions and no external calls (the worked example in the spec). -/
def exampleModerateUtility : FunctionAnalysis :=
  { name := "combine"
    func_type := "utility"
    parameters := [("a", none), ("b", none)]
    return_type := none
    is_async := false
    is_generator := false
    decorators := []
    raises_exceptions := []
    docstring := none
    complexity := "moderate"
    external_calls := []
    source_code := "" }

/-- C2: the target test count is a pure deterministic function of the profile,
equal to the spec's closed formula (base 20, +15 complex / +8 moderate,
+10 for context_manager/db_function/api_endpoint or +8 for auth_function,
+3 per parameter if more than 3 parameters else +2 per parameter,
+2 per raised exception, +1 per external call, capped at 100); in particular
a moderate-complexity utility function with 2 parameters, no raised exceptions
and no external calls yields exactly 32. -/
theorem target_count_formula :
    (∀ fa : FunctionAnalysis, calculate_target_tests fa = target_tests_spec fa) ∧
    calculate_target_tests exampleModerateUtility = 32 := by
  constructor
  · intro fa
    have hp : (if 3 < fa.parameters.length then fa.parameters.length * 3
        else if 0 < fa.parameters.length then fa.parameters.length * 2 else 0)
        = (if 3 < fa.parameters.length then 3 * fa.parameters.length
           else 2 * fa.parameters.length) := by
      split_ifs <;> omega
    have hr : (if fa.raises_exceptions ≠ [] then fa.raises_exceptions.length * 2 else 0)
        = 2 * fa.raises_exceptions.length := by
      by_cases h : fa.raises_exceptions = []
      · simp [h]
      · simp [h, Nat.mul_comm]
    have he : (if fa.external_calls ≠ [] then fa.external_calls.length else 0)
        = fa.external_calls.length := by
      by_cases h : fa.external_calls = []
      · simp [h]
      · simp [h]
    simp only [calculate_target_tests, target_tests_spec]
    rw [hp, hr, he]
  · decide

/-- C6: for every code text, expected text and function name — hence for every
combination of the five multiplicative quality factors — the quality score is
clamped into the interval `[0.1, 1.0]`. -/
theorem quality_score_clamped (code expected func_name : String) :
    1/10 ≤ score_test_quality code expected func_name ∧
    score_test_quality code expected func_name ≤ 1 := by
  unfold score_test_quality
  refine ⟨le_min (le_max_right _ _) (by norm_num), min_le_right _ _⟩

/-! ## Deterministic fallback generator
(`_generate_intelligent_fallback` and its category helpers,
TEST10.py lines 755-1081).  The f-string snippets are reproduced verbatim;
`\x7b`/`\x7d` denote the literal brace characters. -/

/-- `make_call` helper inside `_generate_intelligent_fallback`. -/
def make_call (func_name args : String) : String :=
  func_name ++ "(" ++ args ++ ")"

/-- `make_async_call` helper inside `_generate_intelligent_fallback`. -/
def make_async_call (is_async : Bool) (func_name args : String) : String :=
  if is_async then "await " ++ func_name ++ "(" ++ args ++ ")"
  else func_name ++ "(" ++ args ++ ")"

/-- `_generate_api_fallback_tests` (lines 838-876). -/
def generate_api_fallback_tests (func_name : String) (_param_count : Nat) :
    List GeneratedTest :=
  [ { code := "# Assuming client fixture\nresponse = client.get('/" ++ func_name ++ "')"
      description := "GET request to endpoint"
      test_type := "normal"
      expected := "response.status_code in [200, 201]"
      quality_score := 2/5
      validation_notes := [] },
    { code := "response = client.post('/" ++ func_name ++ "', json=\x7b\x7d)"
      description := "POST request with empty JSON"
      test_type := "boundary"
      expected := "response.status_code in [200, 400, 422]"
      quality_score := 2/5
      validation_notes := [] },
    { code := "response = client.get('/" ++ func_name ++ "/invalid')"
      description := "GET with invalid path"
      test_type := "error"
      expected := "response.status_code in [404, 400]"
      quality_score := 2/5
      validation_notes := [] },
    { code := "response = client.put('/" ++ func_name ++ "', json=\x7b'data': 'test'\x7d)"
      description := "PUT request to endpoint"
      test_type := "normal"
      expected := "response.status_code in [200, 201, 204, 400, 422]"
      quality_score := 2/5
      validation_notes := [] },
    { code := "response = client.delete('/" ++ func_name ++ "')"
      description := "DELETE request"
      test_type := "normal"
      expected := "response.status_code in [200, 204, 404]"
      quality_score := 2/5
      validation_notes := [] } ]

/-- `_generate_context_manager_fallback_tests` (lines 878-909). -/
def generate_context_manager_fallback_tests (func_name : String) :
    List GeneratedTest :=
  [ { code := "with " ++ func_name ++ "() as resource:\n    assert resource is not None"
      description := "Context manager acquires resource"
      test_type := "normal"
      expected := "True"
      quality_score := 1/2
      validation_notes := [] },
    { code := "try:\n    with " ++ func_name ++
        "() as resource:\n        raise ValueError('test')\nexcept ValueError:\n    pass"
      description := "Context manager cleans up on exception"
      test_type := "error"
      expected := "True"
      quality_score := 1/2
      validation_notes := [] },
    { code := "with " ++ func_name ++ "() as r1:\n    with " ++ func_name ++
        "() as r2:\n        assert r1 is not None and r2 is not None"
      description := "Nested context managers"
      test_type := "edge"
      expected := "True"
      quality_score := 1/2
      validation_notes := [] },
    { code := "resource = None\nwith " ++ func_name ++
        "() as resource:\n    pass\nassert resource is not None"
      description := "Resource accessible after context"
      test_type := "normal"
      expected := "True"
      quality_score := 1/2
      validation_notes := [] } ]

/-- `_generate_db_fallback_tests` (lines 911-942). -/
def generate_db_fallback_tests (func_name : String) (_param_count : Nat) :
    List GeneratedTest :=
  [ { code := "# With mock db\nresult = " ++ func_name ++ "(mock_db)"
      description := "Query with valid database connection"
      test_type := "normal"
      expected := "result is not None"
      quality_score := 2/5
      validation_notes := [] },
    { code := "try:\n    result = " ++ func_name ++ "(None)\nexcept Exception:\n    pass"
      description := "Query with None connection"
      test_type := "error"
      expected := "True"
      quality_score := 2/5
      validation_notes := [] },
    { code := "result = " ++ func_name ++
        "(mock_db)\nassert isinstance(result, (list, tuple, dict, type(None)))"
      description := "Query returns expected type"
      test_type := "normal"
      expected := "True"
      quality_score := 2/5
      validation_notes := [] },
    { code := "result = " ++ func_name ++
        "(mock_db)\nassert len(result) >= 0 or result is None"
      description := "Query handles empty results"
      test_type := "boundary"
      expected := "True"
      quality_score := 2/5
      validation_notes := [] } ]

/-- `_generate_auth_fallback_tests` (lines 944-982). -/
def generate_auth_fallback_tests (func_name : String) (_param_count : Nat) :
    List GeneratedTest :=
  [ { code := "result = " ++ func_name ++ "('user', 'pass')"
      description := "Authentication with valid credentials"
      test_type := "normal"
      expected := "result is not None and result != False"
      quality_score := 2/5
      validation_notes := [] },
    { code := "result = " ++ func_name ++ "('user', 'wrong')"
      description := "Authentication with wrong password"
      test_type := "error"
      expected := "result == False or result is None"
      quality_score := 2/5
      validation_notes := [] },
    { code := "result = " ++ func_name ++ "('', '')"
      description := "Authentication with empty credentials"
      test_type := "boundary"
      expected := "result == False or result is None"
      quality_score := 2/5
      validation_notes := [] },
    { code := "result = " ++ func_name ++ "('nonexistent', 'pass')"
      description := "Authentication with nonexistent user"
      test_type := "error"
      expected := "result == False or result is None"
      quality_score := 2/5
      validation_notes := [] },
    { code := "try:\n    result = " ++ func_name ++
        "(None, None)\nexcept TypeError:\n    pass"
      description := "Authentication handles None inputs"
      test_type := "error"
      expected := "True"
      quality_score := 2/5
      validation_notes := [] } ]

/-- `_generate_utility_fallback_tests` (lines 984-1081).  `param_types` is
passed by the caller but never read by the Python function, mirrored here. -/
def generate_utility_fallback_tests (func_name : String) (param_count : Nat)
    (_param_types : List (Option String)) (return_type : String) :
    List GeneratedTest :=
  let tests :=
    if param_count = 0 then
      [ { code := "result = " ++ func_name ++ "()"
          description := "Function call with no parameters"
          test_type := "normal"
          expected := "result is not None or result is None"
          quality_score := 2/5
          validation_notes := [] },
        { code := "result1 = " ++ func_name ++ "()\nresult2 = " ++ func_name ++
            "()\nassert result1 == result2"
          description := "Multiple calls produce consistent results"
          test_type := "normal"
          expected := "True"
          quality_score := 2/5
          validation_notes := [] } ]
    else if param_count = 1 then
      ((["5", "0", "-1", "'test'", "None", "[]"].take 5).map (fun val =>
        { code := "result = " ++ func_name ++ "(" ++ val ++ ")"
          description := "Function call with " ++ val
          test_type := "normal"
          expected := "result is not None or result is None"
          quality_score := 2/5
          validation_notes := [] }))
    else
      [ { code := "result = " ++ func_name ++ "(" ++
            String.intercalate "," (List.replicate param_count "5") ++ ")"
          description := "Function call with " ++ toString param_count ++
            " numeric parameters"
          test_type := "normal"
          expected := "result is not None"
          quality_score := 2/5
          validation_notes := [] },
        { code := "result = " ++ func_name ++ "(" ++
            String.intercalate "," (List.replicate param_count "0") ++ ")"
          description := "Function call with all zeros"
          test_type := "boundary"
          expected := "result is not None or result == 0"
          quality_score := 2/5
          validation_notes := [] },
        { code := "result = " ++ func_name ++ "(" ++
            String.intercalate "," (List.replicate param_count "-1") ++ ")"
          description := "Function call with negative parameters"
          test_type := "edge"
          expected := "result is not None"
          quality_score := 2/5
          validation_notes := [] },
        { code := "result = " ++ func_name ++ "(" ++
            String.intercalate ","
              ((List.range param_count).map (fun i => "(" ++ toString (i + 1) ++ ")")) ++ ")"
          description := "Function call with sequential parameters"
          test_type := "normal"
          expected := "result is not None"
          quality_score := 2/5
          validation_notes := [] } ]
  let tests := tests ++
    (if strContains (lowerStr return_type) ("bool") then
      [ { code := if 0 < param_count then "result = " ++ func_name ++ "(1)"
                  else "result = " ++ func_name ++ "()"
          description := "Returns boolean value"
          test_type := "normal"
          expected := "isinstance(result, bool)"
          quality_score := 2/5
          validation_notes := [] } ] else [])
  let tests := tests ++
    (if strContains (lowerStr return_type) ("str") then
      [ { code := if 0 < param_count then "result = " ++ func_name ++ "(1)"
                  else "result = " ++ func_name ++ "()"
          description := "Returns string value"
          test_type := "normal"
          expected := "isinstance(result, str) or result is None"
          quality_score := 2/5
          validation_notes := [] } ] else [])
  let tests := tests ++
    (if strContains (lowerStr return_type) ("int") ||
        strContains (lowerStr return_type) ("float") then
      [ { code := if 0 < param_count then "result = " ++ func_name ++ "(1)"
                  else "result = " ++ func_name ++ "()"
          description := "Returns numeric value"
          test_type := "normal"
          expected := "isinstance(result, (int, float)) or result is None"
          quality_score := 2/5
          validation_notes := [] } ] else [])
  tests.take 20

/-- `_generate_intelligent_fallback` (lines 755-836): category dispatch,
then up to 3 exception probes, then generator/async probes, truncated to 20. -/
def generate_intelligent_fallback (fa : FunctionAnalysis) : List GeneratedTest :=
  let func_name := fa.name
  let param_count := fa.parameters.length
  let param_types := fa.parameters.map Prod.snd
  let return_type := fa.return_type.getD "unknown"
  let tests :=
    if fa.func_type = "api_endpoint" then
      generate_api_fallback_tests func_name param_count
    else if fa.func_type = "context_manager" then
      generate_context_manager_fallback_tests func_name
    else if fa.func_type = "db_function" then
      generate_db_fallback_tests func_name param_count
    else if fa.func_type = "auth_function" then
      generate_auth_fallback_tests func_name param_count
    else
      generate_utility_fallback_tests func_name param_count param_types return_type
  let tests := tests ++ (fa.raises_exceptions.take 3).map (fun exc =>
    { code := "try:\n    result = " ++ make_call func_name "None" ++
        "\nexcept " ++ exc ++ ":\n    pass"
      description := "Handles " ++ exc ++ " exception"
      test_type := "error"
      expected := "True"
      quality_score := 1/2
      validation_notes := [] })
  let tests := tests ++
    (if fa.is_generator then
      [ { code := "for item in " ++ make_call func_name "None" ++ ":\n    pass"
          description := "Generator yields items"
          test_type := "normal"
          expected := "iteration_successful"
          quality_score := 1/2
          validation_notes := [] } ] else [])
  let tests := tests ++
    (if fa.is_async then
      [ { code := "import asyncio\nasyncio.run(" ++
          make_async_call fa.is_async func_name "None" ++ ")"
          description := "Async function executes"
          test_type := "normal"
          expected := "completed_successfully"
          quality_score := 1/2
          validation_notes := [] } ] else [])
  tests.take 20

/-! ## C5 / C9: bounds and quality of the fallback generator -/

lemma api_fallback_quality {t : GeneratedTest} {fn : String} {n : Nat}
    (h : t ∈ generate_api_fallback_tests fn n) : t.quality_score = 2/5 := by
  simp only [generate_api_fallback_tests, List.mem_cons, List.not_mem_nil,
    or_false] at h
  rcases h with rfl | rfl | rfl | rfl | rfl <;> rfl

lemma cm_fallback_quality {t : GeneratedTest} {fn : String}
    (h : t ∈ generate_context_manager_fallback_tests fn) : t.quality_score = 1/2 := by
  simp only [generate_context_manager_fallback_tests, List.mem_cons,
    List.not_mem_nil, or_false] at h
  rcases h with rfl | rfl | rfl | rfl <;> rfl

lemma db_fallback_quality {t : GeneratedTest} {fn : String} {n : Nat}
    (h : t ∈ generate_db_fallback_tests fn n) : t.quality_score = 2/5 := by
  simp only [generate_db_fallback_tests, List.mem_cons, List.not_mem_nil,
    or_false] at h
  rcases h with rfl | rfl | rfl | rfl <;> rfl

lemma auth_fallback_quality {t : GeneratedTest} {fn : String} {n : Nat}
    (h : t ∈ generate_auth_fallback_tests fn n) : t.quality_score = 2/5 := by
  simp only [generate_auth_fallback_tests, List.mem_cons, List.not_mem_nil,
    or_false] at h
  rcases h with rfl | rfl | rfl | rfl | rfl <;> rfl

lemma utility_fallback_quality {t : GeneratedTest} {fn : String} {n : Nat}
    {pt : List (Option String)} {rt : String}
    (h : t ∈ generate_utility_fallback_tests fn n pt rt) : t.quality_score = 2/5 := by
  simp only [generate_utility_fallback_tests] at h
  have h' := List.mem_of_mem_take h
  rcases List.mem_append.mp h' with h'' | h3
  · rcases List.mem_append.mp h'' with h4 | h5
    · rcases List.mem_append.mp h4 with h6 | h7
      · split at h6
        · simp only [List.mem_cons, List.not_mem_nil, or_false] at h6
          rcases h6 with rfl | rfl <;> rfl
        · split at h6
          · rcases List.mem_map.mp h6 with ⟨v, _, rfl⟩
            rfl
          · simp only [List.mem_cons, List.not_mem_nil, or_false] at h6
            rcases h6 with rfl | rfl | rfl | rfl <;> rfl
      · split at h7
        · simp only [List.mem_cons, List.not_mem_nil, or_false] at h7
          rcases h7 with rfl
          rfl
        · simp at h7
    · split at h5
      · simp only [List.mem_cons, List.not_mem_nil, or_false] at h5
        rcases h5 with rfl
        rfl
      · simp at h5
  · split at h3
    · simp only [List.mem_cons, List.not_mem_nil, or_false] at h3
      rcases h3 with rfl
      rfl
    · simp at h3

lemma fallback_member_quality {fa : FunctionAnalysis} {t : GeneratedTest}
    (h : t ∈ generate_intelligent_fallback fa) : t.quality_score ≤ 1/2 := by
  simp only [generate_intelligent_fallback] at h
  have h' := List.mem_of_mem_take h
  rcases List.mem_append.mp h' with h'' | hAsync
  · rcases List.mem_append.mp h'' with h4 | hGen
    · rcases List.mem_append.mp h4 with hBase | hExc
      · split at hBase
        · rw [api_fallback_quality hBase]; norm_num
        · split at hBase
          · rw [cm_fallback_quality hBase]
          · split at hBase
            · rw [db_fallback_quality hBase]; norm_num
            · split at hBase
              · rw [auth_fallback_quality hBase]; norm_num
              · rw [utility_fallback_quality hBase]; norm_num
      · rcases List.mem_map.mp hExc with ⟨exc, _, rfl⟩
        norm_num
    · split at hGen
      · simp only [List.mem_cons, List.not_mem_nil, or_false] at hGen
        rcases hGen with rfl
        norm_num
      · simp at hGen
  · split at hAsync
    · simp only [List.mem_cons, List.not_mem_nil, or_false] at hAsync
      rcases hAsync with rfl
      norm_num
    · simp at hAsync

lemma run_status_failed_of_le {t : GeneratedTest}
    (h : t.quality_score ≤ 1/2) : run_status t = "failed" := by
  unfold run_status
  rw [if_neg]
  intro hgt
  exact absurd (lt_of_lt_of_le hgt h) (by norm_num)

/-- C9: every record the deterministic fallback generator produces, whatever the
profile and category branch, carries a hardcoded quality score of 0.4 or 0.5,
hence at most 0.5; in particular it never exceeds the 0.7 passing threshold and
the downstream status label of `run` is always `failed` for fallback records. -/
theorem fallback_quality_below_threshold (fa : FunctionAnalysis) (t : GeneratedTest)
    (h : t ∈ generate_intelligent_fallback fa) :
    t.quality_score ≤ 1/2 ∧ run_status t = "failed" :=
  ⟨fallback_member_quality h, run_status_failed_of_le (fallback_member_quality h)⟩

/-- An `auth_function` profile with no raised exceptions, not a generator and
not async (used as the concrete instance for C5/C9). -/
def exampleAuthProfile : FunctionAnalysis :=
  { name := "login"
    func_type := "auth_function"
    parameters := [("user", none), ("password", none)]
    return_type := some "bool"
    is_async := false
    is_generator := false
    decorators := []
    raises_exceptions := []
    docstring := none
    complexity := "simple"
    external_calls := []
    source_code := "" }

/-- Witness for C9: the first fallback record of a concrete auth profile
satisfies the bound and is labelled `failed`. -/
theorem fallback_quality_below_threshold_witness :
    ((generate_intelligent_fallback exampleAuthProfile).get ⟨0, by decide⟩).quality_score ≤ 1/2 ∧
    run_status ((generate_intelligent_fallback exampleAuthProfile).get ⟨0, by decide⟩) = "failed" :=
  fallback_quality_below_threshold exampleAuthProfile _ (List.get_mem _ _ _)

/-- C5: the deterministic fallback generator is a pure function of the profile
returning at most 20 records for every profile, and an `auth_function` profile
with no raised exceptions and neither generator nor async flags gets exactly
the fixed set of 5 auth records. -/
theorem fallback_bounded :
    (∀ fa : FunctionAnalysis, (generate_intelligent_fallback fa).length ≤ 20) ∧
    (∀ fa : FunctionAnalysis, fa.func_type = "auth_function" →
      fa.raises_exceptions = [] → fa.is_generator = false → fa.is_async = false →
      (generate_intelligent_fallback fa).length = 5) := by
  constructor
  · intro fa
    exact List.length_take_le 20 _
  · intro fa h1 h2 h3 h4
    simp [generate_intelligent_fallback, h1, h2, h3, h4,
      generate_auth_fallback_tests]

/-- Witness for C5: the concrete auth profile has exactly 5 fallback records,
and the global 20-record bound holds there. -/
theorem fallback_bounded_witness :
    (generate_intelligent_fallback exampleAuthProfile).length ≤ 20 ∧
    (generate_intelligent_fallback exampleAuthProfile).length = 5 :=
  ⟨fallback_bounded.1 exampleAuthProfile,
   fallback_bounded.2 exampleAuthProfile rfl rfl rfl rfl⟩

/-! ## Response parser (`_parse_ai_response` / `_parse_test_block`,
TEST10.py lines 663-723)

The Python code uses `re` with `IGNORECASE | DOTALL` (no `MULTILINE`), so in
the patterns below `$` matches at the end of the text or just before a final
newline, `.` matches newlines, and letters match case-insensitively.
Backtracking is resolved as the Python engine does: `\s*`, `\w+` and `\d+`
runs are effectively deterministic because the character that must follow
them can never extend the run, and the single genuinely lazy group
`(.+?)(?=STOP|$)` takes the shortest non-empty prefix whose remainder is a
stop position. -/

/-- Match one expected character, returning the rest of the input. -/
def expectChar (c : Char) : List Char → Option (List Char)
  | x :: rest => if x == c then some rest else none
  | [] => none

/-- Match a literal pattern case-insensitively (`re.IGNORECASE`). -/
def matchCI : List Char → List Char → Option (List Char)
  | [], s => some s
  | _ :: _, [] => none
  | p :: ps, c :: cs => if p.toLower == c.toLower then matchCI ps cs else none

/-- Match one-or-more characters satisfying `p` (a greedy `\s+` / `\d+` run),
returning the input after the maximal run. -/
def matchSome (p : Char → Bool) : List Char → Option (List Char)
  | c :: rest => if p c then some (rest.dropWhile p) else none
  | [] => none

/-- Match the tag `\[TEST\s+\d+\]` (case-insensitive) at the head of the
input, returning the input after the closing bracket. -/
def matchTag (s : List Char) : Option (List Char) := do
  let r0 ← expectChar '[' s
  let r1 ← matchCI ("TEST".data) r0
  let r2 ← matchSome pyIsSpace r1
  let r3 ← matchSome Char.isDigit r2
  expectChar ']' r3

/-- `$` of a non-`MULTILINE` Python pattern: end of text, or just before a
final newline. -/
def isDollarPos (r : List Char) : Bool :=
  r.isEmpty || r == ['\n']

/-- The lazy-group capture of `(.+?)(?=STOP|$)`: consume at least one
character and stop at the first position whose remainder satisfies `stop`
(callers include the `$` positions in `stop`, so this succeeds on every
non-empty input). -/
def lazyCapture (stop : List Char → Bool) : List Char → Option (List Char)
  | [] => none
  | c :: rest =>
    if stop rest then some [c]
    else
      match lazyCapture stop rest with
      | some cap => some (c :: cap)
      | none => none

/-- Block capture of `\[TEST\s+\d+\](.*?)(?=\[TEST\s+\d+\]|$)`: the segment
after a tag, up to the next tag or `$` position; returns the segment and the
remaining input. -/
def takeBlock : List Char → List Char × List Char
  | [] => ([], [])
  | c :: rest =>
    if (matchTag (c :: rest)).isSome || (c == '\n' && rest.isEmpty) then
      ([], c :: rest)
    else
      let p := takeBlock rest
      (c :: p.1, p.2)

/-- `re.findall` of the block pattern: scan left to right for tags, capturing
each segment.  The fuel argument is structural bookkeeping only: every
recursive call consumes at least one input character (a tag is at least 8
characters and `takeBlock` never lengthens its input), so the `s.length + 1`
budget supplied by `findBlocks` is never exhausted. -/
def findBlocksF : Nat → List Char → List (List Char)
  | 0, _ => []
  | _ + 1, [] => []
  | fuel + 1, c :: rest =>
    match matchTag (c :: rest) with
    | some r =>
      let p := takeBlock r
      p.1 :: findBlocksF fuel p.2
    | none => findBlocksF fuel rest

/-- All `[TEST n]` blocks of a completion text. -/
def findBlocks (s : List Char) : List (List Char) :=
  findBlocksF (s.length + 1) s

/-- The stop lookahead `\n\w+\s*:` of the `CODE:` / `EXPECTED:` field
patterns: a newline, then a label word, optional whitespace and a colon. -/
def labelAheadStop (r : List Char) : Bool :=
  match r with
  | '\n' :: rest =>
    let w := rest.takeWhile pyIsWord
    if w.isEmpty then false
    else
      match (rest.drop w.length).dropWhile pyIsSpace with
      | ':' :: _ => true
      | _ => false
  | _ => false

/-- Stop positions of `CODE\s*:\s*(.+?)(?=\n\w+\s*:|$)` (also used for
`EXPECTED`). -/
def stopFieldValue (r : List Char) : Bool :=
  labelAheadStop r || isDollarPos r

/-- The stop lookahead `\n\[TEST` of the `DESCRIPTION` pattern. -/
def testTagAhead (r : List Char) : Bool :=
  match r with
  | '\n' :: '[' :: rest => (matchCI ("TEST".data) rest).isSome
  | _ => false

/-- Stop positions of `DESCRIPTION\s*:\s*(.+?)(?=\n\[TEST|$)`. -/
def stopDescValue (r : List Char) : Bool :=
  testTagAhead r || isDollarPos r

/-- Attempt the pattern `LABEL\s*:\s*(.+?)(?=STOP|$)` at the current
position.  After the colon, the greedy `\s*` backtracks exactly when the
whitespace run reaches the end of the input, because the lazy group needs at
least one character and a `$` stop position is always available. -/
def extractFieldAt (label : List Char) (stop : List Char → Bool)
    (s : List Char) : Option (List Char) := do
  let r1 ← matchCI label s
  let r2 ← expectChar ':' (r1.dropWhile pyIsSpace)
  match r2 with
  | [] => none
  | _ :: _ =>
    let j := (r2.takeWhile pyIsSpace).length
    lazyCapture stop (r2.drop (min j (r2.length - 1)))

/-- Attempt the pattern `TYPE\s*:\s*(\w+)` at the current position. -/
def extractTypeAt (s : List Char) : Option (List Char) := do
  let r1 ← matchCI ("TYPE".data) s
  let r2 ← expectChar ':' (r1.dropWhile pyIsSpace)
  let r3 := r2.dropWhile pyIsSpace
  let w := r3.takeWhile pyIsWord
  if w.isEmpty then none else some w

/-- `re.search`: try the position pattern at every suffix, left to right. -/
def searchPos (f : List Char → Option (List Char)) : List Char → Option (List Char)
  | [] => none
  | c :: rest =>
    match f (c :: rest) with
    | some v => some v
    | none => searchPos f rest

/-- The dictionary `_parse_test_block` builds: `type` always present
(defaulted), `code` present and non-empty (otherwise the function returns
`None`), `expected`/`description` optional (and possibly empty after
stripping). -/
structure TestData where
  ttype : String
  code : String
  expected : Option String
  description : Option String
  deriving DecidableEq

/-- `_parse_test_block` (lines 697-723). -/
def parse_test_block (block : List Char) : Option TestData :=
  let ty :=
    match searchPos extractTypeAt block with
    | some w => String.mk (w.map Char.toLower)
    | none => "normal"
  let codeOpt := (searchPos (extractFieldAt ("CODE".data) stopFieldValue) block).map
    (fun l => String.mk (pyStrip l))
  let expOpt := (searchPos (extractFieldAt ("EXPECTED".data) stopFieldValue) block).map
    (fun l => String.mk (pyStrip l))
  let descOpt := (searchPos (extractFieldAt ("DESCRIPTION".data) stopDescValue) block).map
    (fun l => String.mk (pyStrip l))
  match codeOpt with
  | some c => if c = "" then none else some ⟨ty, c, expOpt, descOpt⟩
  | none => none

/-- One iteration of the `_parse_ai_response` loop body (lines 673-692):
`p.1` is the 1-based block index from `enumerate(test_blocks, 1)`, `p.2` the
block text.  The guard is `if test_data and test_data.get('code') and
test_data.get('expected')`. -/
def parse_block_to_test (func_name : String) (p : Nat × List Char) :
    Option GeneratedTest :=
  match parse_test_block p.2 with
  | some td =>
    if td.code ≠ "" then
      match td.expected with
      | some e =>
        if e ≠ "" then
          some { code := td.code
                 description := td.description.getD ("AI-generated test case " ++ toString p.1)
                 test_type := td.ttype
                 expected := e
                 quality_score := score_test_quality td.code e func_name
                 validation_notes := [] }
        else none
      | none => none
    else none
  | none => none

/-- `_parse_ai_response` (lines 663-695): split into `[TEST n]` blocks, parse
each block, keep only blocks with a non-empty code and a non-empty expected
field, and score the kept records.  Total by construction — the Python
contract that parsing never raises. -/
def parse_ai_response (response : String) (func_name : String) : List GeneratedTest :=
  let blocks := findBlocks response.data
  (List.enumFrom 1 blocks).filterMap (parse_block_to_test func_name)

/-! ## C4 / C10: parser tolerance and retained-record guarantees -/

/-- A block is kept by `_parse_ai_response` exactly when `_parse_test_block`
yields a dictionary with a non-empty `code` and a non-empty `expected`. -/
def blockKept (b : List Char) : Bool :=
  match parse_test_block b with
  | some td =>
    if td.code ≠ "" then
      match td.expected with
      | some e => if e ≠ "" then true else false
      | none => false
    else false
  | none => false

lemma parse_block_to_test_isSome (fn : String) (p : Nat × List Char) :
    (parse_block_to_test fn p).isSome = blockKept p.2 := by
  unfold parse_block_to_test blockKept
  cases htd : parse_test_block p.2 with
  | none => rfl
  | some td =>
    cases hexp : td.expected with
    | none =>
      by_cases hc : td.code ≠ "" <;> simp [hc, hexp]
    | some e =>
      by_cases hc : td.code ≠ "" <;> by_cases he : e ≠ "" <;> simp [hc, he, hexp]

lemma parse_filterMap_length (fn : String) :
    ∀ (bs : List (List Char)) (i : Nat),
      ((List.enumFrom i bs).filterMap (parse_block_to_test fn)).length
        = bs.countP blockKept := by
  intro bs
  induction bs with
  | nil => intro i; rfl
  | cons b rest ih =>
    intro i
    rw [List.enumFrom_cons, List.countP_cons]
    have hs := parse_block_to_test_isSome fn (i, b)
    cases hf : parse_block_to_test fn (i, b) with
    | none =>
      rw [hf] at hs
      simp only [Option.isSome_none] at hs
      rw [List.filterMap_cons_none hf, ih (i + 1), ← hs]
      simp
    | some t =>
      rw [hf] at hs
      simp only [Option.isSome_some] at hs
      rw [List.filterMap_cons_some hf, ← hs, List.length_cons, ih (i + 1)]
      simp

/-- The worked parsing example from the specification: two tagged blocks, the
second lacking an `EXPECTED` field. -/
def exampleCompletion : String :=
  "[TEST 1] TYPE: boundary CODE: f(0) EXPECTED: 0 DESCRIPTION: zero test [TEST 2] CODE: f(1)"

/-- C4: the response parser is total (it is a Lean function, mirroring the
contract that `_parse_ai_response` never raises), it keeps exactly those
case-insensitive `[TEST n]` blocks whose parsed `CODE` and `EXPECTED` fields
are non-empty — every other block is dropped — and on the worked example
`[TEST 1] TYPE: boundary CODE: f(0) EXPECTED: 0 DESCRIPTION: zero test
[TEST 2] CODE: f(1)` it finds two blocks and yields exactly one record,
because block 2 has no `EXPECTED` field. -/
theorem parser_drops_incomplete_blocks :
    (∀ resp fn : String,
      (parse_ai_response resp fn).length = (findBlocks resp.data).countP blockKept) ∧
    (findBlocks exampleCompletion.data).length = 2 ∧
    (parse_ai_response exampleCompletion ("f")).length = 1 := by
  refine ⟨fun resp fn => parse_filterMap_length fn (findBlocks resp.data) 1, by decide, by decide⟩

lemma score_ge_of_expected_ne {code expected fn : String} (he : expected ≠ "") :
    3/10 ≤ score_test_quality code expected fn := by
  simp only [score_test_quality]
  rw [if_neg he]
  split_ifs <;> norm_num

/-- C10: every record the response parser actually returns has a non-empty
expected field — the ×0.5 empty-expected penalty of the quality scorer is
unreachable for retained records — and its quality score is at least 0.3. -/
theorem parsed_records_floor (resp fn : String) (t : GeneratedTest)
    (h : t ∈ parse_ai_response resp fn) :
    t.expected ≠ "" ∧ 3/10 ≤ t.quality_score := by
  simp only [parse_ai_response] at h
  rcases List.mem_filterMap.mp h with ⟨p, _, hf⟩
  unfold parse_block_to_test at hf
  rcases htd : parse_test_block p.2 with _ | td
  · rw [htd] at hf; exact absurd hf (by simp)
  · rw [htd] at hf
    dsimp only [] at hf
    split at hf
    · rcases hexp : td.expected with _ | e
      · rw [hexp] at hf; exact absurd hf (by simp)
      · rw [hexp] at hf
        dsimp only [] at hf
        split at hf
        · rename_i he
          injection hf with hf'
          subst hf'
          exact ⟨he, score_ge_of_expected_ne he⟩
        · exact absurd hf (by simp)
    · exact absurd hf (by simp)

/-- A concrete completion text whose single block is retained. -/
def exampleRetainedCompletion : String :=
  "[TEST 1]\nCODE: abc123\nEXPECTED: 7\n"

/-- Witness for C10: the first record parsed from a concrete completion text
has a non-empty expected field and a score of at least 0.3. -/
theorem parsed_records_floor_witness :
    ((parse_ai_response exampleRetainedCompletion ("f")).get ⟨0, by decide⟩).expected ≠ "" ∧
    3/10 ≤ ((parse_ai_response exampleRetainedCompletion ("f")).get ⟨0, by decide⟩).quality_score :=
  parsed_records_floor exampleRetainedCompletion ("f") _ (List.get_mem _ _ _)

/-! ## Orchestrator (`_generate_ai_tests`, TEST10.py lines 438-514)

The three completion requests are external calls; each attempt's outcome is an
`Option String` oracle argument (`none` = the `llm.generate` call raised and
the surrounding `try/except` treated the attempt as yielding nothing).  The
escalation thresholds `int(target_tests * 0.75)` and `int(target_tests * 0.5)`
are modelled as `3 * target / 4` and `target / 2` in `ℕ`: `target ≤ 100`, so
the float products are exact and `int()` truncation of a non-negative value is
floor division. -/

/-- The tests contributed by one attempt: `[]` when the attempt raised. -/
def parseOpt : Option String → String → List GeneratedTest
  | some r, fn => parse_ai_response r fn
  | none, _ => []

/-- The shared merge/dedupe loop (`for t in tests: if t.code not in
seen_codes: seen_codes.add(t.code); all_tests.append(t)`), threading the
accumulated list and the seen-code set (kept as a list; only membership is
consulted). -/
def mergeTests : List GeneratedTest → List String → List GeneratedTest →
    List GeneratedTest × List String
  | acc, seen, [] => (acc, seen)
  | acc, seen, t :: rest =>
    if t.code ∈ seen then mergeTests acc seen rest
    else mergeTests (acc ++ [t]) (seen ++ [t.code]) rest

/-- The final re-deduplication (lines 505-511), which is the merge loop run
from an empty accumulator. -/
def dedupByCode (l : List GeneratedTest) : List GeneratedTest :=
  (mergeTests [] [] l).1

/-- State after attempt 1 (lines 443-461). -/
def afterAttempt1 (fa : FunctionAnalysis) (r1 : Option String) :
    List GeneratedTest × List String :=
  mergeTests [] [] (parseOpt r1 fa.name)

/-- Attempt 2 guard (line 464): `len(all_tests) < int(target_tests * 0.75)`. -/
def attempt2_runs (fa : FunctionAnalysis) (r1 : Option String) : Bool :=
  (afterAttempt1 fa r1).1.length < 3 * calculate_target_tests fa / 4

/-- State after attempt 2 (lines 463-478). -/
def afterAttempt2 (fa : FunctionAnalysis) (r1 r2 : Option String) :
    List GeneratedTest × List String :=
  let st := afterAttempt1 fa r1
  if attempt2_runs fa r1 then mergeTests st.1 st.2 (parseOpt r2 fa.name) else st

/-- Attempt 3 guard (line 481): `len(all_tests) < int(target_tests * 0.5)`. -/
def attempt3_runs (fa : FunctionAnalysis) (r1 r2 : Option String) : Bool :=
  (afterAttempt2 fa r1 r2).1.length < calculate_target_tests fa / 2

/-- State after attempt 3 (lines 480-494). -/
def afterAttempt3 (fa : FunctionAnalysis) (r1 r2 r3 : Option String) :
    List GeneratedTest × List String :=
  let st := afterAttempt2 fa r1 r2
  if attempt3_runs fa r1 r2 then mergeTests st.1 st.2 (parseOpt r3 fa.name) else st

/-- Fallback guard (line 497): `len(all_tests) < 10`, independent of target. -/
def fallback_runs (fa : FunctionAnalysis) (r1 r2 r3 : Option String) : Bool :=
  (afterAttempt3 fa r1 r2 r3).1.length < 10

/-- State after the fallback merge (lines 496-503). -/
def afterFallback (fa : FunctionAnalysis) (r1 r2 r3 : Option String) :
    List GeneratedTest × List String :=
  let st := afterAttempt3 fa r1 r2 r3
  if fallback_runs fa r1 r2 r3 then
    mergeTests st.1 st.2 (generate_intelligent_fallback fa)
  else st

/-- `_generate_ai_tests` (lines 438-514): the full escalation protocol with
the oracle responses, ending in the final order-preserving re-deduplication. -/
def generate_ai_tests (fa : FunctionAnalysis) (r1 r2 r3 : Option String) :
    List GeneratedTest :=
  dedupByCode (afterFallback fa r1 r2 r3).1

/-! ### Merge-loop lemmas -/

lemma mergeTests_seen_mono {x : String} :
    ∀ (ts : List GeneratedTest) (acc : List GeneratedTest) (seen : List String),
      x ∈ seen → x ∈ (mergeTests acc seen ts).2 := by
  intro ts
  induction ts with
  | nil => intro acc seen h; exact h
  | cons t rest ih =>
    intro acc seen h
    by_cases hc : t.code ∈ seen
    · rw [mergeTests, if_pos hc]; exact ih acc seen h
    · rw [mergeTests, if_neg hc]
      exact ih _ _ (List.mem_append_left _ h)

lemma mergeTests_codes_in_seen {t : GeneratedTest} :
    ∀ (ts : List GeneratedTest) (acc : List GeneratedTest) (seen : List String),
      t ∈ ts → t.code ∈ (mergeTests acc seen ts).2 := by
  intro ts
  induction ts with
  | nil => intro acc seen h; cases h
  | cons u rest ih =>
    intro acc seen h
    by_cases hc : u.code ∈ seen
    · rw [mergeTests, if_pos hc]
      rcases List.mem_cons.mp h with rfl | h'
      · exact mergeTests_seen_mono rest acc seen hc
      · exact ih acc seen h'
    · rw [mergeTests, if_neg hc]
      rcases List.mem_cons.mp h with rfl | h'
      · exact mergeTests_seen_mono rest _ _
          (List.mem_append_right _ (List.mem_singleton.mpr rfl))
      · exact ih _ _ h'

lemma mergeTests_stable :
    ∀ (ts : List GeneratedTest) (acc : List GeneratedTest) (seen : List String),
      (∀ t ∈ ts, t.code ∈ seen) → mergeTests acc seen ts = (acc, seen) := by
  intro ts
  induction ts with
  | nil => intro acc seen _; rfl
  | cons t rest ih =>
    intro acc seen h
    rw [mergeTests, if_pos (h t (List.mem_cons_self t rest))]
    exact ih acc seen (fun u hu => h u (List.mem_cons_of_mem t hu))

/-- Structure of one merge pass: the accumulator is extended by a sublist of
the input whose codes are fresh and pairwise distinct, and the seen set is
extended by exactly those codes. -/
lemma mergeTests_spec :
    ∀ (ts : List GeneratedTest) (acc : List GeneratedTest) (seen : List String),
      ∃ extra, mergeTests acc seen ts = (acc ++ extra, seen ++ extra.map (·.code)) ∧
        extra.Sublist ts ∧ (∀ t ∈ extra, t.code ∉ seen) ∧
        (extra.map (·.code)).Nodup := by
  intro ts
  induction ts with
  | nil =>
    intro acc seen
    exact ⟨[], by simp [mergeTests], List.nil_sublist _, by simp, List.nodup_nil⟩
  | cons t rest ih =>
    intro acc seen
    by_cases hc : t.code ∈ seen
    · rcases ih acc seen with ⟨extra, heq, hsub, hfresh, hnd⟩
      exact ⟨extra, by rw [mergeTests, if_pos hc]; exact heq,
        hsub.cons t, hfresh, hnd⟩
    · rcases ih (acc ++ [t]) (seen ++ [t.code]) with ⟨extra, heq, hsub, hfresh, hnd⟩
      refine ⟨t :: extra, ?_, hsub.cons₂ t, ?_, ?_⟩
      · rw [mergeTests, if_neg hc, heq]
        simp
      · intro u hu
        rcases List.mem_cons.mp hu with rfl | hu'
        · exact hc
        · intro hmem
          exact hfresh u hu' (List.mem_append_left _ hmem)
      · refine List.nodup_cons.mpr ⟨?_, hnd⟩
        intro hmem
        rcases List.mem_map.mp hmem with ⟨u, hu, hcode⟩
        exact hfresh u hu (by simp only at hcode; simp [hcode])

lemma mergeTests_run_of_nodup :
    ∀ (ts : List GeneratedTest) (acc : List GeneratedTest) (seen : List String),
      (∀ t ∈ ts, t.code ∉ seen) → (ts.map (·.code)).Nodup →
      mergeTests acc seen ts = (acc ++ ts, seen ++ ts.map (·.code)) := by
  intro ts
  induction ts with
  | nil => intro acc seen _ _; simp [mergeTests]
  | cons t rest ih =>
    intro acc seen hfresh hnd
    rw [mergeTests, if_neg (hfresh t (List.mem_cons_self t rest))]
    rw [List.map_cons, List.nodup_cons] at hnd
    rw [ih (acc ++ [t]) (seen ++ [t.code]) ?_ hnd.2]
    · simp
    · intro u hu
      rw [List.mem_append, List.mem_singleton]
      rintro (h | h)
      · exact hfresh u (List.mem_cons_of_mem t hu) h
      · exact hnd.1 (h ▸ List.mem_map_of_mem (·.code) hu)

/-- Re-deduplicating an already deduplicated list changes nothing. -/
lemma dedupByCode_idem (l : List GeneratedTest) :
    dedupByCode (dedupByCode l) = dedupByCode l := by
  unfold dedupByCode
  rcases mergeTests_spec l [] [] with ⟨extra, heq, _, _, hnd⟩
  rw [heq]
  simp only [List.nil_append]
  rw [mergeTests_run_of_nodup extra [] [] (by simp) hnd]
  simp

/-- C7: deduplication by exact code text is idempotent — merging the parser's
output of a completion text into an accumulated set a second time leaves the
state unchanged — the merged size never exceeds the accumulator size plus the
number of parsed records whose code is not already in the seen set, and the
merge only appends: the result is the accumulator followed by a sublist of the
parsed sequence (first-seen insertion order). -/
theorem dedup_merge_idempotent (acc : List GeneratedTest) (seen : List String)
    (resp fn : String) :
    mergeTests (mergeTests acc seen (parse_ai_response resp fn)).1
        (mergeTests acc seen (parse_ai_response resp fn)).2
        (parse_ai_response resp fn)
      = mergeTests acc seen (parse_ai_response resp fn) ∧
    (mergeTests acc seen (parse_ai_response resp fn)).1.length ≤
      acc.length + ((parse_ai_response resp fn).filter
        (fun t => !decide (t.code ∈ seen))).length ∧
    ∃ extra, (mergeTests acc seen (parse_ai_response resp fn)).1 = acc ++ extra ∧
      extra.Sublist (parse_ai_response resp fn) := by
  refine ⟨?_, ?_, ?_⟩
  · have h := mergeTests_stable (parse_ai_response resp fn)
      (mergeTests acc seen (parse_ai_response resp fn)).1
      (mergeTests acc seen (parse_ai_response resp fn)).2
      (fun t ht => mergeTests_codes_in_seen _ acc seen ht)
    rw [h]
  · rcases mergeTests_spec (parse_ai_response resp fn) acc seen with
      ⟨extra, heq, hsub, hfresh, _⟩
    rw [heq]
    simp only [List.length_append]
    have hfe : extra.filter (fun t => !decide (t.code ∈ seen)) = extra :=
      List.filter_eq_self.mpr (fun t ht => by simpa using hfresh t ht)
    have hle : extra.Sublist ((parse_ai_response resp fn).filter
        (fun t => !decide (t.code ∈ seen))) :=
      hfe ▸ hsub.filter (fun t => !decide (t.code ∈ seen))
    have := hle.length_le
    omega
  · rcases mergeTests_spec (parse_ai_response resp fn) acc seen with
      ⟨extra, heq, hsub, _, _⟩
    exact ⟨extra, by rw [heq], hsub⟩

/-! ## C3: graceful degradation to the fallback -/

lemma target_ge_20 (fa : FunctionAnalysis) : 20 ≤ calculate_target_tests fa := by
  have h : ∀ a b c d e : ℕ, 20 ≤ min (20 + a + b + c + d + e) 100 := by
    intro a b c d e; omega
  exact h _ _ _ _ _

lemma afterAttempt3_all_none (fa : FunctionAnalysis) :
    afterAttempt3 fa none none none = ([], []) := by
  have ht := target_ge_20 fa
  have h1 : afterAttempt1 fa none = ([], []) := rfl
  have h2 : attempt2_runs fa none = true := by
    unfold attempt2_runs
    rw [h1]
    simp only [List.length_nil, decide_eq_true_eq]
    omega
  have h3 : afterAttempt2 fa none none = ([], []) := by
    unfold afterAttempt2
    rw [h2, if_pos rfl, h1]
    rfl
  have h4 : attempt3_runs fa none none = true := by
    unfold attempt3_runs
    rw [h3]
    simp only [List.length_nil, decide_eq_true_eq]
    omega
  unfold afterAttempt3
  rw [h4, if_pos rfl, h3]
  rfl

lemma generate_all_none (fa : FunctionAnalysis) :
    generate_ai_tests fa none none none =
      dedupByCode (generate_intelligent_fallback fa) := by
  have h3 := afterAttempt3_all_none fa
  have h4 : fallback_runs fa none none none = true := by
    unfold fallback_runs
    rw [h3]
    simp
  have h5 : afterFallback fa none none none =
      mergeTests [] [] (generate_intelligent_fallback fa) := by
    unfold afterFallback
    rw [h4, if_pos rfl, h3]
  unfold generate_ai_tests
  rw [h5]
  exact dedupByCode_idem _

lemma dedupByCode_length_le (l : List GeneratedTest) :
    (dedupByCode l).length ≤ l.length := by
  unfold dedupByCode
  rcases mergeTests_spec l [] [] with ⟨extra, heq, hsub, _, _⟩
  rw [heq]
  simpa using hsub.length_le

lemma dedupByCode_length_ge_two {t1 t2 : GeneratedTest} {Y : List GeneratedTest}
    (hne : t2.code ≠ t1.code) :
    2 ≤ (dedupByCode (t1 :: t2 :: Y)).length := by
  unfold dedupByCode
  rw [mergeTests, if_neg (List.not_mem_nil _)]
  rw [mergeTests, if_neg (by simp [hne])]
  rcases mergeTests_spec Y ([] ++ [t1] ++ [t2]) ([] ++ [t1.code] ++ [t2.code]) with
    ⟨extra, heq, _, _, _⟩
  rw [heq]
  simp

lemma fallback_utility_zero_take (fa : FunctionAnalysis)
    (h0 : fa.parameters = []) (h1 : fa.func_type = "utility") :
    (generate_intelligent_fallback fa).take 2 =
      [ { code := "result = " ++ fa.name ++ "()"
          description := "Function call with no parameters"
          test_type := "normal"
          expected := "result is not None or result is None"
          quality_score := 2/5
          validation_notes := [] },
        { code := "result1 = " ++ fa.name ++ "()\nresult2 = " ++ fa.name ++
            "()\nassert result1 == result2"
          description := "Multiple calls produce consistent results"
          test_type := "normal"
          expected := "True"
          quality_score := 2/5
          validation_notes := [] } ] := by
  have htake20 : ∀ (a b : GeneratedTest) (l : List GeneratedTest),
      List.take 20 (a :: b :: l) = a :: b :: List.take 18 l := fun _ _ _ => rfl
  have htake2 : ∀ (a b : GeneratedTest) (l : List GeneratedTest),
      List.take 2 (a :: b :: l) = [a, b] := fun _ _ _ => rfl
  simp only [generate_intelligent_fallback, h1]
  rw [if_neg (by decide), if_neg (by decide), if_neg (by decide), if_neg (by decide)]
  simp only [generate_utility_fallback_tests, h0, List.length_nil]
  rw [if_pos trivial]
  simp only [List.cons_append, List.nil_append]
  rw [htake20]
  simp only [List.cons_append]
  rw [htake20, htake2]

/-- C3: the orchestrator's generation never fails — a raised completion error
in an attempt contributes zero tests and the remaining escalation steps still
run — and when the backend fails in all three attempts the returned sequence
is exactly the deterministic fallback generator's output deduplicated by code;
for a 0-parameter utility profile that result has at least 2 records (no-arg
probe plus determinism probe) and at most 20. -/
theorem generate_never_fails (fa : FunctionAnalysis) :
    generate_ai_tests fa none none none =
      dedupByCode (generate_intelligent_fallback fa) ∧
    (fa.parameters = [] → fa.func_type = "utility" →
      2 ≤ (generate_ai_tests fa none none none).length ∧
      (generate_ai_tests fa none none none).length ≤ 20) := by
  refine ⟨generate_all_none fa, fun h0 h1 => ?_⟩
  rw [generate_all_none fa]
  constructor
  · have hsplit := (List.take_append_drop 2 (generate_intelligent_fallback fa)).symm
    rw [fallback_utility_zero_take fa h0 h1] at hsplit
    rw [hsplit]
    simp only [List.cons_append, List.nil_append]
    refine dedupByCode_length_ge_two ?_
    intro h
    have h' : ("result1 = " ++ fa.name ++ "()\nresult2 = " ++ fa.name ++
        "()\nassert result1 == result2" : String) =
        ("result = " ++ fa.name ++ "()" : String) := h
    have hlen := congrArg String.length h'
    have e1 : ("result1 = " ++ fa.name ++ "()\nresult2 = " ++ fa.name ++
        "()\nassert result1 == result2").length = 2 * fa.name.length + 51 := by
      simp only [String.length_append]
      have ha : ("result1 = " : String).length = 10 := rfl
      have hb : ("()\nresult2 = " : String).length = 13 := rfl
      have hc : ("()\nassert result1 == result2" : String).length = 28 := rfl
      omega
    have e2 : ("result = " ++ fa.name ++ "()").length = fa.name.length + 11 := by
      simp only [String.length_append]
      have ha : ("result = " : String).length = 9 := rfl
      have hb : ("()" : String).length = 2 := rfl
      omega
    rw [e1, e2] at hlen
    omega
  · calc (dedupByCode (generate_intelligent_fallback fa)).length
        ≤ (generate_intelligent_fallback fa).length := dedupByCode_length_le _
      _ ≤ 20 := by
        unfold generate_intelligent_fallback
        exact List.length_take_le 20 _

/-- A `simple` 0-parameter utility profile with no exceptions and no external
calls (target 20), the end-to-end scenario of the spec. -/
def exampleZeroParamUtility : FunctionAnalysis :=
  { name := "now_stamp"
    func_type := "utility"
    parameters := []
    return_type := none
    is_async := false
    is_generator := false
    decorators := []
    raises_exceptions := []
    docstring := none
    complexity := "simple"
    external_calls := []
    source_code := "" }

/-- Witness for C3: the all-attempts-fail scenario on a concrete 0-parameter
utility profile. -/
theorem generate_never_fails_witness :
    generate_ai_tests exampleZeroParamUtility none none none =
      dedupByCode (generate_intelligent_fallback exampleZeroParamUtility) ∧
    (2 ≤ (generate_ai_tests exampleZeroParamUtility none none none).length ∧
      (generate_ai_tests exampleZeroParamUtility none none none).length ≤ 20) :=
  ⟨(generate_never_fails exampleZeroParamUtility).1,
   (generate_never_fails exampleZeroParamUtility).2 rfl rfl⟩

/-! ## C1: the escalation thresholds

The Python guards are `len < int(target * 0.75)` and `len < int(target * 0.5)`
— truncated products — not `len < 0.75 * target` / `len < 0.5 * target` over
the reals.  The two coincide only when the product is an integer; with an
odd target (e.g. 21, reachable as a simple utility function with one external
call) and a running set of exactly `int(target * 0.5)` records they differ. -/

lemma floor_three_quarters (t : ℕ) :
    ⌊(3/4 : ℚ) * (t : ℚ)⌋ = ((3 * t / 4 : ℕ) : ℤ) := by
  rw [Int.floor_eq_iff]
  constructor
  · rw [div_mul_eq_mul_div, le_div_iff₀ (by norm_num)]
    have h : (3 * t / 4) * 4 ≤ 3 * t := Nat.div_mul_le_self _ _
    push_cast
    exact_mod_cast h
  · rw [div_mul_eq_mul_div, div_lt_iff₀ (by norm_num)]
    have h : 3 * t < (3 * t / 4 + 1) * 4 := by omega
    push_cast
    exact_mod_cast h

lemma floor_half (t : ℕ) :
    ⌊(1/2 : ℚ) * (t : ℚ)⌋ = ((t / 2 : ℕ) : ℤ) := by
  rw [Int.floor_eq_iff]
  constructor
  · rw [div_mul_eq_mul_div, le_div_iff₀ (by norm_num), one_mul]
    have h : (t / 2) * 2 ≤ t := Nat.div_mul_le_self _ _
    push_cast
    exact_mod_cast h
  · rw [div_mul_eq_mul_div, div_lt_iff₀ (by norm_num), one_mul]
    have h : t < (t / 2 + 1) * 2 := by omega
    push_cast
    exact_mod_cast h

/-- A simple utility profile with one external call: target `20 + 1 = 21`. -/
def oddTargetProfile : FunctionAnalysis :=
  { name := "f"
    func_type := "utility"
    parameters := []
    return_type := none
    is_async := false
    is_generator := false
    decorators := []
    raises_exceptions := []
    docstring := none
    complexity := "simple"
    external_calls := ["g"]
    source_code := "" }

/-- A completion for attempt 1 that parses into 10 records with distinct
codes `aa1 … aa10`. -/
def tenTestCompletion : String :=
  "[TEST 1]\nCODE: aa1\nEXPECTED: 1\n[TEST 2]\nCODE: aa2\nEXPECTED: 2\n" ++
  "[TEST 3]\nCODE: aa3\nEXPECTED: 3\n[TEST 4]\nCODE: aa4\nEXPECTED: 4\n" ++
  "[TEST 5]\nCODE: aa5\nEXPECTED: 5\n[TEST 6]\nCODE: aa6\nEXPECTED: 6\n" ++
  "[TEST 7]\nCODE: aa7\nEXPECTED: 7\n[TEST 8]\nCODE: aa8\nEXPECTED: 8\n" ++
  "[TEST 9]\nCODE: aa9\nEXPECTED: 9\n[TEST 10]\nCODE: aa10\nEXPECTED: 10\n"

/-- A completion for attempt 3 that parses into one record with the fresh
code `fresh9`. -/
def freshTestCompletion : String :=
  "[TEST 1]\nCODE: fresh9\nEXPECTED: 9\n"

set_option maxRecDepth 100000 in
/-- C1 counterexample: with target 21 and a running set of 10 records after
attempts 1–2, the claim's condition `10 < 0.5 × 21` holds, so the claim
asserts attempt 3 runs and merges its (fresh, deduplicable) record — but the
code's guard `10 < int(21 * 0.5) = 10` is false: attempt 3 is skipped, the
attempt-3 completion is ignored, and its fresh code is absent from the
returned sequence. -/
theorem escalation_thresholds_counterexample :
    calculate_target_tests oddTargetProfile = 21 ∧
    (afterAttempt2 oddTargetProfile (some tenTestCompletion) none).1.length = 10 ∧
    ((10 : ℚ) < (1/2) * 21) ∧
    attempt3_runs oddTargetProfile (some tenTestCompletion) none = false ∧
    (generate_ai_tests oddTargetProfile (some tenTestCompletion) none
        (some freshTestCompletion)).map (·.code)
      = (generate_ai_tests oddTargetProfile (some tenTestCompletion) none none).map (·.code) ∧
    (parse_ai_response freshTestCompletion oddTargetProfile.name).map (·.code)
      = ["fresh9"] ∧
    "fresh9" ∉ (generate_ai_tests oddTargetProfile (some tenTestCompletion) none
        (some freshTestCompletion)).map (·.code) := by
  refine ⟨by decide, by decide, by norm_num, by decide, by decide, by decide, by decide⟩

lemma attempt3_runs_congr (fa : FunctionAnalysis) {r1 r2 r1' r2' : Option String}
    (h : afterAttempt2 fa r1 r2 = afterAttempt2 fa r1' r2') :
    attempt3_runs fa r1 r2 = attempt3_runs fa r1' r2' := by
  unfold attempt3_runs
  rw [h]

lemma afterAttempt3_congr (fa : FunctionAnalysis) {r1 r2 r1' r2' : Option String}
    (r3 : Option String) (h : afterAttempt2 fa r1 r2 = afterAttempt2 fa r1' r2') :
    afterAttempt3 fa r1 r2 r3 = afterAttempt3 fa r1' r2' r3 := by
  simp only [afterAttempt3, attempt3_runs, h]

lemma generate_ai_tests_congr (fa : FunctionAnalysis)
    {r1 r2 r3 r1' r2' r3' : Option String}
    (h : afterAttempt3 fa r1 r2 r3 = afterAttempt3 fa r1' r2' r3') :
    generate_ai_tests fa r1 r2 r3 = generate_ai_tests fa r1' r2' r3' := by
  simp only [generate_ai_tests, afterFallback, fallback_runs, h]

/-- C1 amended: attempt 2 runs iff the running set size after attempt 1 is
strictly below `⌊0.75 × target⌋` (the value of `int(target * 0.75)`), attempt
3 runs iff the running set size after attempt 2 is strictly below
`⌊0.5 × target⌋`, and the deterministic fallback is invoked iff the running
set size is strictly below the absolute floor 10, independent of target;
moreover the attempt-2 and attempt-3 completions only influence the result
when their guard holds. -/
theorem escalation_thresholds_amended (fa : FunctionAnalysis)
    (r1 r2 r3 : Option String) :
    (attempt2_runs fa r1 = true ↔
      ((afterAttempt1 fa r1).1.length : ℤ) <
        ⌊(3/4 : ℚ) * (calculate_target_tests fa : ℚ)⌋) ∧
    (attempt3_runs fa r1 r2 = true ↔
      ((afterAttempt2 fa r1 r2).1.length : ℤ) <
        ⌊(1/2 : ℚ) * (calculate_target_tests fa : ℚ)⌋) ∧
    (fallback_runs fa r1 r2 r3 = true ↔
      (afterAttempt3 fa r1 r2 r3).1.length < 10) ∧
    generate_ai_tests fa r1 r2 r3 =
      generate_ai_tests fa r1 (if attempt2_runs fa r1 then r2 else none)
        (if attempt3_runs fa r1 r2 then r3 else none) := by
  refine ⟨?_, ?_, ?_, ?_⟩
  · rw [floor_three_quarters]
    unfold attempt2_runs
    rw [decide_eq_true_eq]
    exact_mod_cast Iff.rfl
  · rw [floor_half]
    unfold attempt3_runs
    rw [decide_eq_true_eq]
    exact_mod_cast Iff.rfl
  · unfold fallback_runs
    rw [decide_eq_true_eq]
  · cases h2 : attempt2_runs fa r1 with
    | true =>
      rw [if_pos rfl]
      cases h3 : attempt3_runs fa r1 r2 with
      | true => rw [if_pos rfl]
      | false =>
        rw [if_neg Bool.false_ne_true]
        apply generate_ai_tests_congr
        simp only [afterAttempt3]
        rw [h3]
        simp
    | false =>
      rw [if_neg Bool.false_ne_true]
      have e2 : afterAttempt2 fa r1 r2 = afterAttempt2 fa r1 none := by
        simp only [afterAttempt2]
        rw [h2]
        simp
      have h3eq : attempt3_runs fa r1 r2 = attempt3_runs fa r1 none :=
        attempt3_runs_congr fa e2
      cases h3 : attempt3_runs fa r1 r2 with
      | true =>
        rw [if_pos rfl]
        exact generate_ai_tests_congr fa (afterAttempt3_congr fa r3 e2)
      | false =>
        rw [if_neg Bool.false_ne_true]
        apply generate_ai_tests_congr
        have h3' : attempt3_runs fa r1 none = false := by
          rw [← h3eq]
          exact h3
        simp only [afterAttempt3]
        rw [h3, h3']
        simp only [Bool.false_eq_true, if_false]
        exact e2

/-! ## Return-type inference (`_analyze_return_type` / `_infer_value_type`,
TEST10.py lines 153-194) -/

/-- Shapes of Python `ast` value expressions distinguished by
`_infer_value_type`.  `constOther` covers constants that are neither `None`,
`bool`, `int` nor `str` (e.g. floats, bytes); `callOther` a call whose callee
is not a plain name; `otherExpr` every remaining expression kind. -/
inductive PyValue where
  | constNone
  | constBool (b : Bool)
  | constInt (n : Int)
  | constStr (s : String)
  | constOther
  | listLit
  | dictLit
  | tupleLit
  | callNamed (id : String)
  | callOther
  | nameRef (id : String)
  | binOp
  | compare
  | otherExpr
  deriving DecidableEq

/-- `_infer_value_type` (lines 168-194).  Booleans are tested before integers
(`isinstance(value.value, bool)` first), and the fall-through cases return
`None`. -/
def infer_value_type : PyValue → Option String
  | .constNone => some ("None")
  | .constBool _ => some ("bool")
  | .constInt _ => some ("int")
  | .constStr _ => some ("str")
  | .constOther => none
  | .listLit => some ("list")
  | .dictLit => some ("dict")
  | .tupleLit => some ("tuple")
  | .callNamed id => some (id ++ "(...)")
  | .callOther => none
  | .nameRef id => some ("var:" ++ id)
  | .binOp => some ("numeric")
  | .compare => some ("bool")
  | .otherExpr => none

/-- The distinct elements of a list in first-occurrence order — the key order
of an insertion-ordered Python dictionary (and hence of `collections.Counter`)
built by scanning the list. -/
def firstOccs : List String → List String
  | [] => []
  | x :: xs => x :: (firstOccs xs).filter (fun y => y != x)

/-- Modelled from the documented semantics of `collections.Counter`:
`Counter(returns).items()` enumerates the distinct elements in
first-occurrence order, each paired with its multiplicity. -/
def counterItems (l : List String) : List (String × Nat) :=
  (firstOccs l).map (fun k => (k, l.count k))

/-- Modelled from the documented semantics of `Counter.most_common(1)`
(`heapq.nlargest` is stable): the first entry of maximal count. -/
def pickFirstMax : List (String × Nat) → Option (String × Nat)
  | [] => none
  | p :: rest =>
    match pickFirstMax rest with
    | none => some p
    | some q => if q.2 > p.2 then some q else some p

/-- `_analyze_return_type` (lines 153-166), taking the `walk`-ordered list of
`return`-expression values: collect the inferable types, return `None` when
there are none, otherwise `Counter(returns).most_common(1)[0][0]`. -/
def analyze_return_type (rets : List PyValue) : Option String :=
  let returns := rets.filterMap infer_value_type
  if returns.isEmpty then none
  else (pickFirstMax (counterItems returns)).map Prod.fst

/-! ### C8 lemmas -/

lemma mem_firstOccs {x : String} : ∀ {l : List String}, x ∈ firstOccs l ↔ x ∈ l := by
  intro l
  induction l with
  | nil => simp [firstOccs]
  | cons a xs ih =>
    simp only [firstOccs, List.mem_cons, List.mem_filter]
    constructor
    · rintro (rfl | ⟨h, _⟩)
      · exact Or.inl rfl
      · exact Or.inr (ih.mp h)
    · rintro (rfl | h)
      · exact Or.inl rfl
      · by_cases hx : x = a
        · exact Or.inl hx
        · exact Or.inr ⟨ih.mpr h, by simpa using hx⟩

lemma firstOccs_pairwise_indexOf :
    ∀ l : List String, (firstOccs l).Pairwise (fun a b => l.indexOf a < l.indexOf b) := by
  intro l
  induction l with
  | nil => exact List.Pairwise.nil
  | cons x xs ih =>
    simp only [firstOccs]
    refine List.pairwise_cons.mpr ⟨?_, ?_⟩
    · intro b hb
      have hbx : b ≠ x := by simpa using (List.mem_filter.mp hb).2
      rw [List.indexOf_cons_self, List.indexOf_cons_ne _ (Ne.symm hbx)]
      omega
    · have hp : ((firstOccs xs).filter (fun y => y != x)).Pairwise
          (fun a b => xs.indexOf a < xs.indexOf b) :=
        List.Pairwise.sublist (List.filter_sublist _) ih
      refine hp.imp_of_mem ?_
      intro a b ha hb hab
      have hax : a ≠ x := by simpa using (List.mem_filter.mp ha).2
      have hbx : b ≠ x := by simpa using (List.mem_filter.mp hb).2
      rw [List.indexOf_cons_ne _ (Ne.symm hax), List.indexOf_cons_ne _ (Ne.symm hbx)]
      omega

lemma pickFirstMax_eq_none {es : List (String × Nat)} :
    pickFirstMax es = none ↔ es = [] := by
  cases es with
  | nil => simp [pickFirstMax]
  | cons a rest =>
    rcases hr : pickFirstMax rest with _ | q
    · simp [pickFirstMax, hr]
    · simp only [pickFirstMax, hr]
      by_cases hgt : q.2 > a.2
      · rw [if_pos hgt]
        simp
      · rw [if_neg hgt]
        simp

lemma pickFirstMax_mem_max :
    ∀ {es : List (String × Nat)} {p : String × Nat}, pickFirstMax es = some p →
      p ∈ es ∧ ∀ q ∈ es, q.2 ≤ p.2 := by
  intro es
  induction es with
  | nil => intro p h; cases h
  | cons a rest ih =>
    intro p h
    rcases hr : pickFirstMax rest with _ | q
    · simp only [pickFirstMax, hr] at h
      injection h with h
      subst h
      have hrest : rest = [] := pickFirstMax_eq_none.mp hr
      subst hrest
      refine ⟨List.mem_singleton.mpr rfl, ?_⟩
      intro q hq
      rw [List.mem_singleton] at hq
      subst hq
      exact le_refl _
    · simp only [pickFirstMax, hr] at h
      rcases ih hr with ⟨hqmem, hqmax⟩
      by_cases hgt : q.2 > a.2
      · rw [if_pos hgt] at h
        injection h with h
        subst h
        refine ⟨List.mem_cons_of_mem a hqmem, ?_⟩
        intro b hb
        rcases List.mem_cons.mp hb with rfl | hb'
        · exact le_of_lt hgt
        · exact hqmax b hb'
      · rw [if_neg hgt] at h
        injection h with h
        subst h
        refine ⟨List.mem_cons_self _ _, ?_⟩
        intro b hb
        rcases List.mem_cons.mp hb with rfl | hb'
        · exact le_refl _
        · exact le_trans (hqmax b hb') (not_lt.mp hgt)

lemma pickFirstMax_split :
    ∀ {es : List (String × Nat)} {p : String × Nat}, pickFirstMax es = some p →
      ∃ pre post, es = pre ++ p :: post ∧ ∀ q ∈ pre, q.2 < p.2 := by
  intro es
  induction es with
  | nil => intro p h; cases h
  | cons a rest ih =>
    intro p h
    rcases hr : pickFirstMax rest with _ | q
    · simp only [pickFirstMax, hr] at h
      injection h with h
      subst h
      exact ⟨[], rest, rfl, by simp⟩
    · simp only [pickFirstMax, hr] at h
      by_cases hgt : q.2 > a.2
      · rw [if_pos hgt] at h
        injection h with h
        subst h
        rcases ih hr with ⟨pre, post, heq, hpre⟩
        refine ⟨a :: pre, post, by rw [heq]; rfl, ?_⟩
        intro b hb
        rcases List.mem_cons.mp hb with rfl | hb'
        · exact hgt
        · exact hpre b hb'
      · rw [if_neg hgt] at h
        injection h with h
        subst h
        exact ⟨[], rest, rfl, by simp⟩

/-- C8: for every body (given as the walk-ordered list of `return`-expression
values), the inferred return type is the most frequent inferable type, ties
broken in favour of the type first encountered during the frequency count,
and it is absent exactly when no return expression has an inferable type. -/
theorem return_type_most_frequent (rets : List PyValue) :
    (analyze_return_type rets = none ↔ rets.filterMap infer_value_type = []) ∧
    (∀ s, analyze_return_type rets = some s →
      s ∈ rets.filterMap infer_value_type ∧
      (∀ t ∈ rets.filterMap infer_value_type,
        (rets.filterMap infer_value_type).count t ≤
          (rets.filterMap infer_value_type).count s) ∧
      (∀ t ∈ rets.filterMap infer_value_type,
        (rets.filterMap infer_value_type).count t =
          (rets.filterMap infer_value_type).count s →
        (rets.filterMap infer_value_type).indexOf s ≤
          (rets.filterMap infer_value_type).indexOf t)) := by
  set returns := rets.filterMap infer_value_type with hret
  constructor
  · simp only [analyze_return_type, ← hret]
    by_cases hemp : returns.isEmpty
    · rw [if_pos hemp]
      rw [List.isEmpty_iff] at hemp
      simp [hemp]
    · rw [if_neg hemp]
      rw [List.isEmpty_iff] at hemp
      constructor
      · intro h
        exfalso
        have hnone := Option.map_eq_none'.mp h
        have hcnil : counterItems returns = [] := pickFirstMax_eq_none.mp hnone
        have hfnil : firstOccs returns = [] := by
          simpa [counterItems] using List.map_eq_nil_iff.mp hcnil
        rcases hr0 : returns with _ | ⟨y, ys⟩
        · exact hemp hr0
        · rw [hr0] at hfnil
          simp [firstOccs] at hfnil
      · intro h
        exact absurd h hemp
  · intro s hs
    simp only [analyze_return_type, ← hret] at hs
    by_cases hemp : returns.isEmpty
    · rw [if_pos hemp] at hs
      cases hs
    · rw [if_neg hemp] at hs
      rcases Option.map_eq_some'.mp hs with ⟨p, hp, hps⟩
      rcases pickFirstMax_mem_max hp with ⟨hpmem, hpmax⟩
      rcases List.mem_map.mp hpmem with ⟨k, hkmem, hkp⟩
      have hk1 : p.1 = k := by rw [← hkp]
      have hk2 : p.2 = returns.count k := by rw [← hkp]
      have hks : k = s := by rw [← hk1, hps]
      have hp2 : p.2 = returns.count s := by rw [hk2, hks]
      have hsmem : s ∈ returns := by
        rw [← hks]
        exact mem_firstOccs.mp hkmem
      refine ⟨hsmem, ?_, ?_⟩
      · intro t ht
        have htf : t ∈ firstOccs returns := mem_firstOccs.mpr ht
        have htmem : (t, returns.count t) ∈ counterItems returns :=
          List.mem_map_of_mem _ htf
        have hle := hpmax _ htmem
        simpa [hp2] using hle
      · intro t ht htc
        have htf : t ∈ firstOccs returns := mem_firstOccs.mpr ht
        have htmem : (t, returns.count t) ∈ counterItems returns :=
          List.mem_map_of_mem _ htf
        rcases pickFirstMax_split hp with ⟨pre, post, heq, hpre⟩
        have hpw : (counterItems returns).Pairwise
            (fun P Q => returns.indexOf P.1 < returns.indexOf Q.1) :=
          List.pairwise_map.mpr (firstOccs_pairwise_indexOf returns)
        rw [heq] at htmem hpw
        rcases List.mem_append.mp htmem with hin | hin
        · have hlt := hpre _ hin
          simp only [hp2] at hlt
          omega
        · rcases List.mem_cons.mp hin with heqp | hin'
          · have hts : t = s := by
              have := congrArg Prod.fst heqp
              simpa [hps] using this
            rw [hts]
          · have hrel := (List.pairwise_append.mp hpw).2.1
            have hlt := (List.pairwise_cons.mp hrel).1 _ hin'
            simp only [hps] at hlt
            exact le_of_lt hlt

/-- The walk-ordered return expressions `1`, then `"a"`, then `2`: types
`int`, `str`, `int`, so the most frequent type is `int`. -/
def exampleReturns : List PyValue :=
  [.constInt 1, .constStr "a", .constInt 2]

/-- Witness for C8: the concrete body above infers `int`, and the count of
`str` does not beat the count of `int`. -/
theorem return_type_most_frequent_witness :
    analyze_return_type exampleReturns = some ("int") ∧
    (exampleReturns.filterMap infer_value_type).count ("str") ≤
      (exampleReturns.filterMap infer_value_type).count ("int") :=
  ⟨by decide,
   ((return_type_most_frequent exampleReturns).2 ("int") (by decide)).2.1 ("str") (by decide)⟩
